import Mathlib

/-!
# Verification of the world-news-bot core pipeline (`src/bot.py`)

Shallow embedding of the two core functions of `src/bot.py`:

* `fetch_news_gemini` (lines 57-125): the retry loop around the upstream
  text-generation call and the parsing of the returned free text into
  story records;
* `post_thread` (lines 127-191): sequential publication of the story list
  as a reply chain with per-post failure handling.

Python strings are modelled as `List Char` (`Str`): a Python `str` is a
sequence of Unicode code points, which is exactly `String.data` of a Lean
string literal.  The Python string primitives used by the source
(`split`, `strip`, `startswith`, `replace`, slicing, `len`, `in`) are
implemented below as structurally recursive functions on `List Char`, so
that all parsing definitions evaluate inside the kernel (`decide`/`rfl`)
and admit induction.

The network boundaries are modelled as oracles: the text-generation call
as a map from attempt index to an outcome (`GenAttempt`), and the posting
client as a map from call sequence number and submitted text to an
outcome (`PostOutcome`).  `time.sleep` calls are recorded as a ghost list
of slept durations, and each `create_tweet` call is recorded as one
`PEvent` (success or failure), mirroring the per-post console reporting
that constitutes the audit trail.
-/

set_option maxRecDepth 100000

/-- Python strings as sequences of code points. -/
abbrev Str := List Char

/-- `strStarts pat s` is Python `s.startswith(pat)`. -/
def strStarts : Str → Str → Bool
  | [], _ => true
  | _ :: _, [] => false
  | p :: ps, c :: cs => p == c && strStarts ps cs

/-- Fuel-driven worker for `strSplit`; fuel `s.length` always suffices. -/
def strSplitGo (sep : Str) : Nat → Str → Str → List Str
  | 0, s, acc => [acc.reverse ++ s]
  | _ + 1, [], acc => [acc.reverse]
  | fuel + 1, c :: rest, acc =>
      if strStarts sep (c :: rest) then
        acc.reverse :: strSplitGo sep fuel (List.drop sep.length (c :: rest)) []
      else
        strSplitGo sep fuel rest (c :: acc)

/-- Python `s.split(sep)` for a non-empty separator: splits on
non-overlapping occurrences of `sep`, left to right, keeping empty parts. -/
def strSplit (sep s : Str) : List Str := strSplitGo sep s.length s []

/-- Python whitespace recognised by `str.strip()` (the ASCII cases; the
source only ever strips spaces and newlines). -/
def isPySpace (c : Char) : Bool :=
  c == ' ' || c == '\t' || c == '\n' || c == '\x0d' || c == '\x0b' || c == '\x0c'

/-- Python `s.strip()`. -/
def pyStrip (s : Str) : Str :=
  ((s.dropWhile isPySpace).reverse.dropWhile isPySpace).reverse

/-- Python `s.replace(pat, repl)` (all occurrences), via split-and-join,
for a non-empty `pat`. -/
def pyReplace (pat repl s : Str) : Str :=
  List.intercalate repl (strSplit pat s)

/-- Python `pat in s` (substring test) for a non-empty `pat`:
`s.split(pat)` has more than one part iff `pat` occurs in `s`. -/
def pyContains (pat s : Str) : Bool :=
  (strSplit pat s).length != 1

/-- Python `s.split(sep, 1)`: at most one split, at the first occurrence. -/
def pySplit1 (sep s : Str) : List Str :=
  match strSplit sep s with
  | [] => []
  | x :: rest => if rest.isEmpty then [x] else [x, List.intercalate sep rest]

/-- A parsed story record, as built by `fetch_news_gemini` (bot.py:120):
`{"headline": ..., "summary": ..., "source": ..., "link": ...}`. -/
structure Story where
  headline : Str
  summary : Str
  source : Str
  link : Str
deriving DecidableEq

/-- bot.py:105 — `[b.strip() for b in content.split('\n\n') if b.strip()]`. -/
def pyBlocks (content : Str) : List Str :=
  ((strSplit "\n\n".data content).map pyStrip).filter (fun b => !b.isEmpty)

/-- bot.py:108 — `block.startswith(('1.', '2.', '3.', '4.', '5.'))`. -/
def isCandidate (block : Str) : Bool :=
  strStarts "1.".data block || strStarts "2.".data block ||
  strStarts "3.".data block || strStarts "4.".data block ||
  strStarts "5.".data block

/-- bot.py:109 — `[line.strip() for line in block.split('\n') if line.strip()]`. -/
def pyLines (block : Str) : List Str :=
  ((strSplit "\n".data block).map pyStrip).filter (fun l => !l.isEmpty)

/-- bot.py:115 — `lines[0].split('.', 1)[1].strip()`; `none` models the
`IndexError` branch of the `try`/`except` (line 121), which skips the block. -/
def extractHeadline (l0 : Str) : Option Str :=
  ((pySplit1 ".".data l0).get? 1).map pyStrip

/-- bot.py:117-118 — `next((line.replace(tag, "").strip() for line in lines
if line.startswith(tag)), "N/A")`. -/
def extractField (tag : Str) (lines : List Str) : Str :=
  (((lines.find? (fun l => strStarts tag l)).map
    (fun l => pyStrip (pyReplace tag [] l)))).getD "N/A".data

/-- bot.py:107-123 — the body of the per-block loop: `none` means the block
contributes no story (non-candidate, fewer than 4 non-empty lines, or the
`except` branch). -/
def parseBlock (block : Str) : Option Story :=
  if isCandidate block then
    let lines := pyLines block
    if lines.length < 4 then none
    else
      match extractHeadline (lines.getD 0 []) with
      | some h =>
          some { headline := h, summary := lines.getD 1 [],
                 source := extractField "Source:".data lines,
                 link := extractField "Link:".data lines }
      | none => none
  else none

/-- bot.py:104-125 — the parsing stage of `fetch_news_gemini`: the story
list accumulated over all blocks of the response text. -/
def parseStories (content : Str) : List Story :=
  (pyBlocks content).filterMap parseBlock

/-- Outcome of one call to `gemini_client.models.generate_content`
(bot.py:68-74): either a response carrying `response.text` (which Python
may see as `None` or the empty string), or a raised exception whose
message is `str(e)` (bot.py:82). -/
inductive GenAttempt where
  | ok (text : Option Str)
  | err (msg : Str)

/-- bot.py:77 — Python truthiness of `response.text`. -/
def textTruthy : Option Str → Bool
  | none => false
  | some t => !t.isEmpty

/-- bot.py:61 — `MAX_RETRIES = 3`. -/
def MAX_RETRIES : Nat := 3

/-- bot.py:85 — `"503 UNAVAILABLE" in error_message`. -/
def is503 (msg : Str) : Bool := pyContains "503 UNAVAILABLE".data msg

/-- bot.py:63-98 — the retry loop of `fetch_news_gemini`, driven by an
oracle mapping each attempt index to the outcome of that attempt.  The
second component is the ghost trace of `time.sleep` durations (bot.py:89,
`wait_time = 2 ** attempt`), in chronological order.  The fuel argument
counts loop iterations still available; reaching `0` is Python's
`for`-`else` branch (bot.py:95-98, return `[]`). -/
def fetchGo (o : Nat → GenAttempt) : Nat → Nat → List Story × List Nat
  | _, 0 => ([], [])
  | attempt, fuel + 1 =>
      match o attempt with
      | .ok t =>
          if textTruthy t then (parseStories (t.getD []), [])
          else fetchGo o (attempt + 1) fuel
      | .err m =>
          if is503 m = true ∧ attempt < MAX_RETRIES - 1 then
            let r := fetchGo o (attempt + 1) fuel
            (r.1, 2 ^ attempt :: r.2)
          else ([], [])

/-- bot.py:57-125 — `fetch_news_gemini` under an attempt oracle: the
returned story list, paired with the ghost trace of backoff sleeps. -/
def fetch_news_gemini (o : Nat → GenAttempt) : List Story × List Nat :=
  fetchGo o 0 MAX_RETRIES

/-- The response text the retry loop breaks with, if any: same control
flow as `fetchGo`, but observing only the successful payload. -/
def respGo (o : Nat → GenAttempt) : Nat → Nat → Option Str
  | _, 0 => none
  | attempt, fuel + 1 =>
      match o attempt with
      | .ok t => if textTruthy t then t else respGo o (attempt + 1) fuel
      | .err m =>
          if is503 m = true ∧ attempt < MAX_RETRIES - 1 then
            respGo o (attempt + 1) fuel
          else none

/-- Outcome of one `client.create_tweet` call (bot.py:157,179,188):
success with the created post id, or a raised `TweepyException`. -/
inductive PostOutcome where
  | success (id : Nat)
  | failure (err : Str)
deriving DecidableEq

/-- One entry of the publish audit trail.  Each `create_tweet` call made
by `post_thread` is recorded as exactly one event (mirroring the per-post
console reports of bot.py:159,161,181,183,189,191), so the event list is
also the list of network submissions attempted. -/
inductive PEvent where
  | posted (rank id : Nat)
  | failed (rank : Nat) (err : Str)
  | closerPosted (id : Nat)
  | closerFailed (err : Str)
deriving DecidableEq

/-- bot.py:152-154 and 175-176 — `if len(text) > 280: text = text[:277] + "..."`. -/
def truncateTweet (t : Str) : Str :=
  if 280 < t.length then t.take 277 ++ "...".data else t

/-- bot.py:143-150 — the first-post template; `intro` is the banner of
line 139 (fixed label plus the run timestamp, a run input here). -/
def renderFirst (intro : Str) (s : Story) : Str :=
  intro ++ "🔥 1. ".data ++ s.headline ++ "\n\n".data ++
  s.summary ++ "\n\n".data ++ "🔗 ".data ++ s.link ++ "\n".data ++
  "Source: ".data ++ s.source ++ "\n".data ++ "\n#WorldNews #Breaking".data

/-- bot.py:167-173 — the reply template for the story numbered `i`. -/
def renderReply (i : Nat) (s : Story) : Str :=
  "👇 ".data ++ (Nat.repr i).data ++ ". ".data ++ s.headline ++ "\n\n".data ++
  s.summary ++ "\n\n".data ++ "🔗 ".data ++ s.link ++ "\n".data ++
  "Source: ".data ++ s.source ++ "\n".data ++ "\n#NewsUpdate".data

/-- bot.py:188 — the fixed engagement-closer text. -/
def closerText : Str := "Which story do you find most impactful? 👇".data

/-- Turns the closer submission outcome into its audit event. -/
def closerEventOf : PostOutcome → PEvent
  | .success i => .closerPosted i
  | .failure e => .closerFailed e

/-- bot.py:166-184 — the reply loop of `post_thread`.  `client` maps the
call sequence number and submitted text to the call's outcome; `i` is the
story number (`enumerate(stories[1:], 2)`), `k` the next call sequence
number, `prev` the current anchor id (`prev_id`).  Returns the events of
the loop, the next call sequence number, and the final anchor.  On a
failure the loop `break`s (bot.py:184). -/
def postReplies (client : Nat → Str → PostOutcome) :
    List Story → Nat → Nat → Nat → List PEvent × Nat × Nat
  | [], _, k, prev => ([], k, prev)
  | s :: rest, i, k, prev =>
      let t := truncateTweet (renderReply i s)
      match client k t with
      | .success id =>
          let r := postReplies client rest (i + 1) (k + 1) id
          (.posted i id :: r.1, r.2.1, r.2.2)
      | .failure e => ([.failed i e], k + 1, prev)

/-- bot.py:127-191 — `post_thread` under a posting-client oracle.  Empty
input returns without any call (bot.py:128-130); the `client is None`
guard (bot.py:132-134) is outside the model, the client being given.  A
root-post failure returns immediately (bot.py:160-162).  Otherwise the
reply loop runs and then the closer is always submitted (bot.py:186-191)
— including after a mid-chain `break`. -/
def post_thread (intro : Str) (client : Nat → Str → PostOutcome)
    (stories : List Story) : List PEvent :=
  match stories with
  | [] => []
  | s1 :: rest =>
      let t := truncateTweet (renderFirst intro s1)
      match client 0 t with
      | .failure e => [.failed 1 e]
      | .success id1 =>
          let r := postReplies client rest 2 1 id1
          .posted 1 id1 :: (r.1 ++ [closerEventOf (client r.2.1 closerText)])

/-- Does the audit trail contain an engagement-closer attempt? -/
def attemptsCloser (evs : List PEvent) : Bool :=
  evs.any (fun e =>
    match e with
    | .closerPosted _ => true
    | .closerFailed _ => true
    | _ => false)

/-- Modelled from the spec: the parsed records of the source carry no
`rank` field (bot.py:120 stores only headline/summary/source/link); the
spec (§3 and the §9 resolution) defines `rank` as the 1-based parse-order
position in the batch, which is also how `post_thread` numbers posts
(`enumerate(stories[1:], 2)`, bot.py:166).  `batchRanks` assigns those
ranks to a batch. -/
def batchRanks (stories : List Story) : List Nat :=
  (List.range stories.length).map (· + 1)

/-- The chunks of the response that pass the candidate test of bot.py:108. -/
def candidates (content : Str) : List Str :=
  (pyBlocks content).filter (fun b => isCandidate b)

/-- The leading story number `1`-`5` of a candidate chunk (`0` otherwise). -/
def chunkKey (b : Str) : Nat :=
  if strStarts "1.".data b then 1
  else if strStarts "2.".data b then 2
  else if strStarts "3.".data b then 3
  else if strStarts "4.".data b then 4
  else if strStarts "5.".data b then 5
  else 0

/-- The end-to-end example text of spec §8. -/
def exText : Str :=
  ("1. Quake hits region\nThousands affected.\nSource: Reuters\nLink: http://x/1\n\n2. Market rallies\nStocks up 3%.\nSource: AP\nLink: http://x/2").data

-- End-to-end sanity check: the two-story example of spec §8.
example :
    parseStories exText
      = [{ headline := "Quake hits region".data, summary := "Thousands affected.".data,
           source := "Reuters".data, link := "http://x/1".data },
         { headline := "Market rallies".data, summary := "Stocks up 3%.".data,
           source := "AP".data, link := "http://x/2".data }] := by decide

/-- A simple concrete story used in publication scenarios. -/
def wStory : Story :=
  { headline := "Quake hits region".data, summary := "Thousands affected.".data,
    source := "Reuters".data, link := "http://x/1".data }

/-- Second concrete story. -/
def wStory2 : Story :=
  { headline := "Market rallies".data, summary := "Stocks up 3%.".data,
    source := "AP".data, link := "http://x/2".data }

/-- Third concrete story. -/
def wStory3 : Story :=
  { headline := "Storm nears coast".data, summary := "Evacuations begin.".data,
    source := "BBC".data, link := "http://x/3".data }

/-- C6 — Truncation law, as applied by `post_thread` to every rendered
post text (bot.py:152-154 for the root, bot.py:175-176 for replies): if
the rendered text is longer than 280 characters, the submitted text is
its first 277 characters followed by the literal `"..."`, hence has
length exactly 280 and ends with `"..."`; text of at most 280 characters
is submitted unchanged. -/
theorem c6_truncation_law (t : Str) :
    (280 < t.length →
      truncateTweet t = t.take 277 ++ "...".data ∧
      (truncateTweet t).length = 280 ∧
      "...".data <:+ truncateTweet t) ∧
    (t.length ≤ 280 → truncateTweet t = t) := by
  constructor
  · intro h
    have he : truncateTweet t = t.take 277 ++ "...".data := by
      simp [truncateTweet, h]
    refine ⟨he, ?_, ?_⟩
    · rw [he]
      simp [List.length_take]
      omega
    · rw [he]
      exact List.suffix_append _ _
  · intro h
    simp only [truncateTweet]
    rw [if_neg (by omega)]

/-- Witness for C6 at a 300-character text and a short text. -/
theorem c6_truncation_law_witness :
    280 < (List.replicate 300 'a').length ∧
    (truncateTweet (List.replicate 300 'a')).length = 280 ∧
    truncateTweet "short".data = "short".data := by
  have h : 280 < (List.replicate 300 'a').length := by simp
  exact ⟨h, ((c6_truncation_law _).1 h).2.1, (c6_truncation_law _).2 (by decide)⟩

/-- C4 — If the root-post submission fails, `post_thread` records exactly
one `failed` result (for story 1) and makes no further network call
(bot.py:156-162: the `except` branch returns immediately, so neither a
reply nor the closer is attempted; the audit trail records each call made). -/
theorem c4_root_failure (intro : Str) (client : Nat → Str → PostOutcome)
    (s1 : Story) (rest : List Story) (e : Str)
    (hfail : client 0 (truncateTweet (renderFirst intro s1)) = .failure e) :
    post_thread intro client (s1 :: rest) = [.failed 1 e] := by
  simp [post_thread, hfail]

/-- Witness for C4: a client whose every call raises. -/
theorem c4_root_failure_witness :
    post_thread [] (fun _ _ => .failure "boom".data) [wStory, wStory2] =
      [.failed 1 "boom".data] :=
  c4_root_failure [] (fun _ _ => .failure "boom".data) wStory [wStory2] "boom".data rfl

/-- C3 — The batch invariant, with `rank` the spec-defined parse-order
position (`batchRanks`): ranks are strictly increasing, duplicate-free,
exactly the contiguous range from 1 to the batch size, and start at 1
when the batch is non-empty. -/
theorem c3_rank_invariant (content : Str) :
    List.Pairwise (· < ·) (batchRanks (parseStories content)) ∧
    (batchRanks (parseStories content)).Nodup ∧
    (∀ k, k ∈ batchRanks (parseStories content) ↔
      1 ≤ k ∧ k ≤ (parseStories content).length) ∧
    (0 < (parseStories content).length →
      (batchRanks (parseStories content)).head? = some 1) := by
  refine ⟨?_, ?_, ?_, ?_⟩
  · exact List.Pairwise.map _ (fun a b hab => by omega) (List.pairwise_lt_range _)
  · exact List.Nodup.map (fun a b hab => by omega) (List.nodup_range _)
  · intro k
    constructor
    · intro hm
      simp only [batchRanks, List.mem_map, List.mem_range] at hm
      omega
    · intro hk
      simp only [batchRanks, List.mem_map, List.mem_range]
      exact ⟨k - 1, by omega, by omega⟩
  · intro hn
    obtain ⟨m, hm⟩ : ∃ m, (parseStories content).length = m + 1 :=
      ⟨(parseStories content).length - 1, by omega⟩
    simp [batchRanks, hm, List.range_succ_eq_map]

/-- Witness for C3 on the spec §8 example text. -/
theorem c3_rank_invariant_witness :
    1 ∈ batchRanks (parseStories exText) ∧
    (batchRanks (parseStories exText)).head? = some 1 :=
  ⟨((c3_rank_invariant exText).2.2.1 1).mpr (by decide),
   (c3_rank_invariant exText).2.2.2 (by decide)⟩

/-- A response text with six well-formed chunks, all numbered `1.`. -/
def c2Text : Str :=
  ("1. H\nS\nSource: A\nLink: B\n\n1. H\nS\nSource: A\nLink: B\n\n" ++
   "1. H\nS\nSource: A\nLink: B\n\n1. H\nS\nSource: A\nLink: B\n\n" ++
   "1. H\nS\nSource: A\nLink: B\n\n1. H\nS\nSource: A\nLink: B").data

/-- Counterexample to C2: the parser applies no cap, so a response whose
chunks repeat a leading number yields more than `maxStories` records —
here six well-formed chunks numbered `1.` produce six stories. -/
theorem c2_no_cap_counterexample : ¬ (parseStories c2Text).length ≤ 5 := by decide

/-- A block that is not a candidate contributes no story. -/
lemma parseBlock_none_of_not_candidate {b : Str} (h : isCandidate b = false) :
    parseBlock b = none := by
  simp [parseBlock, h]

/-- Each emitted story comes from a candidate block, so the output is no
longer than the candidate-chunk list. -/
lemma length_filterMap_le_filter (l : List Str) :
    (l.filterMap parseBlock).length ≤ (l.filter (fun b => isCandidate b)).length := by
  induction l with
  | nil => simp
  | cons b l ih =>
    by_cases hc : isCandidate b
    · cases hp : parseBlock b <;>
        simp [List.filterMap_cons, List.filter_cons, hc, hp] <;> omega
    · have hcf : isCandidate b = false := by simpa using hc
      simpa [List.filterMap_cons, List.filter_cons, hcf,
             parseBlock_none_of_not_candidate hcf] using ih

/-- A candidate chunk's leading number is one of 1..5. -/
lemma key_mem_of_candidate {b : Str} (h : isCandidate b = true) :
    chunkKey b ∈ ([1, 2, 3, 4, 5] : List Nat) := by
  unfold chunkKey
  split_ifs with h1 h2 h3 h4 h5
  · decide
  · decide
  · decide
  · decide
  · decide
  · exfalso
    simp [isCandidate, h1, h2, h3, h4, h5] at h

/-- A duplicate-free list of numbers drawn from 1..5 has length at most 5. -/
lemma nodup_sub_five {l : List Nat} (hnd : l.Nodup)
    (hsub : ∀ x ∈ l, x ∈ ([1, 2, 3, 4, 5] : List Nat)) : l.length ≤ 5 := by
  have hcard : l.toFinset.card = l.length := List.toFinset_card_of_nodup hnd
  have hss : l.toFinset ⊆ ({1, 2, 3, 4, 5} : Finset ℕ) := by
    intro x hx
    have hx2 := hsub x (List.mem_toFinset.mp hx)
    simpa using hx2
  have h5 := Finset.card_le_card hss
  have hfive : ({1, 2, 3, 4, 5} : Finset ℕ).card = 5 := by decide
  omega

/-- C2 (amended) — The parser applies no truncation to `maxStories`: it
emits one record per well-formed candidate chunk in chunk order, and the
guard of bot.py:108 only restricts the *leading label* of a chunk to
`1.`-`5.`.  Hence the output length is at most 5 exactly under the
additional assumption that no two candidate chunks carry the same leading
number; with repeated numbers the output can be longer (see the
counterexample). -/
theorem c2_bounded_when_labels_distinct (content : Str)
    (h : ((candidates content).map chunkKey).Nodup) :
    (parseStories content).length ≤ 5 := by
  have h1 : (parseStories content).length ≤ (candidates content).length :=
    length_filterMap_le_filter (pyBlocks content)
  have h3 : ∀ x ∈ (candidates content).map chunkKey, x ∈ ([1, 2, 3, 4, 5] : List Nat) := by
    intro x hx
    obtain ⟨b, hb, rfl⟩ := List.mem_map.mp hx
    exact key_mem_of_candidate (by simpa using (List.mem_filter.mp hb).2)
  have h4 := nodup_sub_five h h3
  have h2 : ((candidates content).map chunkKey).length = (candidates content).length :=
    List.length_map _ _
  omega

/-- Witness for amended C2 on the spec §8 example text (labels 1 and 2). -/
theorem c2_bounded_when_labels_distinct_witness :
    ((candidates exText).map chunkKey).Nodup ∧ (parseStories exText).length ≤ 5 :=
  ⟨by decide, c2_bounded_when_labels_distinct exText (by decide)⟩

/-- A chunk whose first line is just `1.` (empty headline available),
with four non-empty lines. -/
def c7Text : Str := "1.\nThousands affected.\nSource: Reuters\nLink: http://x/1".data

/-- Counterexample to C7: the source never checks the stripped headline
for emptiness (bot.py:115 appends unconditionally), so a chunk whose
first line is `1.` is emitted with an empty headline rather than
discarded. -/
theorem c7_empty_headline_counterexample :
    parseStories c7Text =
      [{ headline := [], summary := "Thousands affected.".data,
         source := "Reuters".data, link := "http://x/1".data }] ∧
    (parseStories c7Text).any (fun st => st.headline.isEmpty) = true :=
  ⟨by decide, by decide⟩

/-- C7 (amended) — A chunk whose extracted headline is empty is *not*
discarded: whenever a candidate chunk of the response has at least four
non-empty lines and its first line yields the empty headline, the batch
contains the corresponding record with `headline = ""` (the code performs
no emptiness check on the headline). -/
theorem c7_empty_headline_emitted (content b l0 l1 : Str) (rest : List Str)
    (hmem : b ∈ pyBlocks content)
    (hcand : isCandidate b = true)
    (hlines : pyLines b = l0 :: l1 :: rest)
    (hlen : ¬ (pyLines b).length < 4)
    (hhead : extractHeadline l0 = some []) :
    { headline := ([] : Str), summary := l1,
      source := extractField "Source:".data (pyLines b),
      link := extractField "Link:".data (pyLines b) } ∈ parseStories content := by
  have hp : parseBlock b =
      some { headline := ([] : Str), summary := l1,
             source := extractField "Source:".data (pyLines b),
             link := extractField "Link:".data (pyLines b) } := by
    have hr : 2 ≤ rest.length := by
      rw [hlines] at hlen
      simp [List.length_cons] at hlen
      omega
    simp [parseBlock, hcand, hlen, hlines, hhead, hr]
  exact List.mem_filterMap.mpr ⟨b, hmem, hp⟩

/-- Witness for amended C7 at the concrete chunk of the counterexample. -/
theorem c7_empty_headline_emitted_witness :
    { headline := ([] : Str), summary := "Thousands affected.".data,
      source := extractField "Source:".data (pyLines c7Text),
      link := extractField "Link:".data (pyLines c7Text) } ∈ parseStories c7Text :=
  c7_empty_headline_emitted c7Text c7Text "1.".data "Thousands affected.".data
    ["Source: Reuters".data, "Link: http://x/1".data]
    (by decide) (by decide) (by decide) (by decide) (by decide)

/-- A well-formed chunk with no `Source:` and no `Link:` line. -/
def c8Text : Str := "1. Headline\nSummary text here\nExtra line\nAnother line".data

/-- Counterexample to C8: the sentinel for a missing `Source:`/`Link:`
line is the literal `"N/A"` (bot.py:117-118), not `"unknown"`. -/
theorem c8_sentinel_counterexample :
    parseStories c8Text =
      [{ headline := "Headline".data, summary := "Summary text here".data,
         source := "N/A".data, link := "N/A".data }] ∧
    "N/A".data ≠ "unknown".data :=
  ⟨by decide, by decide⟩

/-- C8 (amended) — For every well-formed candidate chunk with no line
starting with `Source:` (respectively `Link:`), the emitted record's
`source` (respectively `link`) equals the sentinel `"N/A"`. -/
theorem c8_sentinel_is_na (b : Str) (st : Story)
    (hp : parseBlock b = some st) :
    ((pyLines b).find? (fun l => strStarts "Source:".data l) = none →
      st.source = "N/A".data) ∧
    ((pyLines b).find? (fun l => strStarts "Link:".data l) = none →
      st.link = "N/A".data) := by
  unfold parseBlock at hp
  by_cases hc : isCandidate b = true
  · simp only [hc, if_true] at hp
    by_cases hlen : (pyLines b).length < 4
    · simp [hlen] at hp
    · simp only [hlen, if_false] at hp
      cases hh : extractHeadline ((pyLines b).getD 0 []) with
      | none => rw [hh] at hp; exact absurd hp (by simp)
      | some h =>
        rw [hh] at hp
        have hst := Option.some.inj hp
        constructor
        · intro hfind
          rw [← hst]
          simp [extractField, hfind]
        · intro hfind
          rw [← hst]
          simp [extractField, hfind]
  · have hcf : isCandidate b = false := by simpa using hc
    simp [hcf] at hp

/-- Witness for amended C8 at the concrete chunk of the counterexample. -/
theorem c8_sentinel_is_na_witness :
    { headline := "Headline".data, summary := "Summary text here".data,
      source := "N/A".data, link := "N/A".data : Story }.source = "N/A".data ∧
    { headline := "Headline".data, summary := "Summary text here".data,
      source := "N/A".data, link := "N/A".data : Story }.link = "N/A".data :=
  ⟨(c8_sentinel_is_na c8Text _ (by decide)).1 (by decide),
   (c8_sentinel_is_na c8Text _ (by decide)).2 (by decide)⟩

/-- C5 — The retry policy of `fetch_news_gemini` (bot.py:63-98):
1. a transient (`503 UNAVAILABLE`) failure on the first two attempts
   followed by a truthy response yields a successful parse after exactly
   two backoff sleeps of increasing duration 1 then 2 (`2 ** attempt`);
2. when every attempt fails transiently the retry budget (3 attempts) is
   exhausted and the function returns the empty batch after sleeps 1, 2 —
   no fault propagates;
3. a non-transient failure at attempt `k` (after `k` transient failures)
   aborts immediately: empty batch, and only the doubling sleeps
   `1, 2, ...` of the earlier transient attempts — no sleep for the
   aborting attempt and no further attempt. -/
theorem c5_retry_policy :
    (∀ (o : Nat → GenAttempt) (m0 m1 t : Str),
      o 0 = .err m0 → o 1 = .err m1 → o 2 = .ok (some t) →
      is503 m0 = true → is503 m1 = true → t ≠ [] →
      fetch_news_gemini o = (parseStories t, [1, 2])) ∧
    (∀ (o : Nat → GenAttempt),
      (∀ k, k < 3 → ∃ m, o k = .err m ∧ is503 m = true) →
      fetch_news_gemini o = ([], [1, 2])) ∧
    (∀ (o : Nat → GenAttempt) (k : Nat) (ms : Nat → Str) (m : Str),
      k < 3 →
      (∀ j, j < k → o j = .err (ms j) ∧ is503 (ms j) = true) →
      o k = .err m → is503 m = false →
      fetch_news_gemini o = ([], (List.range k).map (fun j => 2 ^ j))) := by
  refine ⟨?_, ?_, ?_⟩
  · intro o m0 m1 t h0 h1 h2 hm0 hm1 ht
    cases t with
    | nil => exact absurd rfl ht
    | cons c cs =>
        simp [fetch_news_gemini, MAX_RETRIES, fetchGo, h0, h1, h2, hm0, hm1, textTruthy]
  · intro o h
    obtain ⟨m0, h0, hm0⟩ := h 0 (by omega)
    obtain ⟨m1, h1, hm1⟩ := h 1 (by omega)
    obtain ⟨m2, h2, hm2⟩ := h 2 (by omega)
    simp [fetch_news_gemini, MAX_RETRIES, fetchGo, h0, h1, h2, hm0, hm1, hm2]
  · intro o k ms m hk hprev hke hm
    interval_cases k
    · simp [fetch_news_gemini, MAX_RETRIES, fetchGo, hke, hm]
    · obtain ⟨h0, hm0⟩ := hprev 0 (by omega)
      simp [fetch_news_gemini, MAX_RETRIES, fetchGo, h0, hm0, hke, hm]
      decide
    · obtain ⟨h0, hm0⟩ := hprev 0 (by omega)
      obtain ⟨h1, hm1⟩ := hprev 1 (by omega)
      simp [fetch_news_gemini, MAX_RETRIES, fetchGo, h0, hm0, h1, hm1, hke, hm]
      decide

/-- A fetch oracle that fails transiently twice, then succeeds. -/
def c5Oracle : Nat → GenAttempt := fun k =>
  if k = 0 then .err "503 UNAVAILABLE: overloaded".data
  else if k = 1 then .err "503 UNAVAILABLE: still overloaded".data
  else .ok (some exText)

/-- Witness for C5: the three retry-policy parts at concrete oracles. -/
theorem c5_retry_policy_witness :
    fetch_news_gemini c5Oracle = (parseStories exText, [1, 2]) ∧
    fetch_news_gemini (fun _ => .err "503 UNAVAILABLE".data) = ([], [1, 2]) ∧
    fetch_news_gemini (fun _ => .err "401 UNAUTHENTICATED".data) = ([], []) := by
  refine ⟨?_, ?_, ?_⟩
  · exact c5_retry_policy.1 c5Oracle _ _ exText rfl rfl rfl
      (by decide) (by decide) (by decide)
  · exact c5_retry_policy.2.1 _ (fun k hk => ⟨"503 UNAVAILABLE".data, rfl, by decide⟩)
  · have h := c5_retry_policy.2.2 (fun _ => .err "401 UNAUTHENTICATED".data) 0
      (fun _ => []) "401 UNAUTHENTICATED".data (by omega)
      (fun j hj => absurd hj (by omega)) rfl (by decide)
    simpa using h

/-- An oracle whose every attempt returns an empty payload. -/
def c9EmptyOracle : Nat → GenAttempt := fun _ => .ok (some [])

/-- Counterexample to C9: an attempt with an empty payload is retried
*without* any backoff sleep (bot.py:77-79: a falsy `response.text` simply
lets the loop move on; `time.sleep` runs only in the 503 branch,
bot.py:85-90).  An all-empty run sleeps not at all, while an all-503 run
sleeps 1 then 2 — the two are not treated identically, contrary to the
claim that the same backoff delay is applied. -/
theorem c9_no_backoff_counterexample :
    (fetch_news_gemini c9EmptyOracle).2 = [] ∧
    (fetch_news_gemini (fun _ => .err "503 UNAVAILABLE".data)).2 = [1, 2] ∧
    ([] : List Nat) ≠ [1, 2] :=
  ⟨by decide, by decide, by decide⟩

/-- C9 (amended) — An attempt returning an empty or absent text payload
is treated as an implicit failure for retry purposes in that it consumes
an attempt of the budget and the loop moves on to the next attempt, but —
unlike an explicit transient error — *no backoff delay* is applied; after
the budget is exhausted the result is the empty sequence (with an empty
sleep trace). -/
theorem c9_empty_payload_retries :
    (∀ (o : Nat → GenAttempt),
      (∀ k, k < 3 → ∃ t, o k = .ok t ∧ textTruthy t = false) →
      fetch_news_gemini o = ([], [])) ∧
    (∀ (o : Nat → GenAttempt) (t : Str),
      o 0 = .ok none → o 1 = .ok (some []) → o 2 = .ok (some t) → t ≠ [] →
      fetch_news_gemini o = (parseStories t, [])) := by
  constructor
  · intro o h
    obtain ⟨t0, h0, ht0⟩ := h 0 (by omega)
    obtain ⟨t1, h1, ht1⟩ := h 1 (by omega)
    obtain ⟨t2, h2, ht2⟩ := h 2 (by omega)
    simp [fetch_news_gemini, MAX_RETRIES, fetchGo, h0, h1, h2, ht0, ht1, ht2]
  · intro o t h0 h1 h2 ht
    cases t with
    | nil => exact absurd rfl ht
    | cons c cs =>
        simp [fetch_news_gemini, MAX_RETRIES, fetchGo, h0, h1, h2, textTruthy]

/-- Witness for amended C9 at concrete oracles. -/
theorem c9_empty_payload_retries_witness :
    fetch_news_gemini c9EmptyOracle = ([], []) ∧
    fetch_news_gemini
      (fun k => if k = 0 then .ok none else if k = 1 then .ok (some []) else .ok (some exText)) =
      (parseStories exText, []) :=
  ⟨c9_empty_payload_retries.1 c9EmptyOracle
      (fun k hk => ⟨some [], rfl, by decide⟩),
   c9_empty_payload_retries.2 _ exText rfl rfl rfl (by decide)⟩

/-- The story list returned by the fetch is exactly the parse of the
response text the retry loop broke with (and empty when no attempt
succeeded). -/
lemma fetchGo_fst_eq (o : Nat → GenAttempt) :
    ∀ fuel attempt, (fetchGo o attempt fuel).1 =
      (respGo o attempt fuel).elim [] parseStories := by
  intro fuel
  induction fuel with
  | zero => intro attempt; rfl
  | succ n ih =>
    intro attempt
    simp only [fetchGo, respGo]
    cases ho : o attempt with
    | ok t =>
        by_cases ht : textTruthy t = true
        · cases t with
          | none => simp [textTruthy] at ht
          | some u => simp [ht]
        · have htf : textTruthy t = false := by simpa using ht
          simp [htf, ih]
    | err m =>
        by_cases hc : is503 m = true ∧ attempt < MAX_RETRIES - 1
        · simp [hc, ih]
        · simp [hc]

/-- C10 — The parsing stage is deterministic: the story list depends only
on the response text the retry loop succeeded with.  Two runs against any
two oracles (any interleaving of transient failures, empty payloads and
delays) that end up breaking with the same text produce identical story
lists, namely the pure parse of that text. -/
theorem c10_parse_deterministic (o o2 : Nat → GenAttempt) (t : Str)
    (h1 : respGo o 0 MAX_RETRIES = some t)
    (h2 : respGo o2 0 MAX_RETRIES = some t) :
    (fetch_news_gemini o).1 = (fetch_news_gemini o2).1 ∧
    (fetch_news_gemini o).1 = parseStories t := by
  have a1 := fetchGo_fst_eq o MAX_RETRIES 0
  have a2 := fetchGo_fst_eq o2 MAX_RETRIES 0
  rw [h1] at a1
  rw [h2] at a2
  exact ⟨a1.trans a2.symm, a1⟩

/-- Witness for C10: a first-attempt success and a third-attempt success
with the same text parse to the same batch. -/
theorem c10_parse_deterministic_witness :
    (fetch_news_gemini (fun _ => .ok (some exText))).1 = (fetch_news_gemini c5Oracle).1 :=
  (c10_parse_deterministic (fun _ => .ok (some exText)) c5Oracle exText
    (by decide) (by decide)).1

/-- Shape of the reply loop when the first `m` reply submissions succeed
and the next one fails: `posted` events for the `m` successes, one
`failed` event, a `break` (no further submission in the loop), and the
next call sequence number handed on to the closer. -/
lemma postReplies_fail_spec (client : Nat → Str → PostOutcome)
    (ids : Nat → Nat) (e : Str) :
    ∀ (rest : List Story) (m i k0 prev : Nat),
      m < rest.length →
      (∀ j, j < m → ∀ t, client (k0 + j) t = .success (ids (k0 + j))) →
      (∀ t, client (k0 + m) t = .failure e) →
      (postReplies client rest i k0 prev).1 =
        (List.range m).map (fun j => PEvent.posted (i + j) (ids (k0 + j)))
          ++ [PEvent.failed (i + m) e] ∧
      (postReplies client rest i k0 prev).2.1 = k0 + m + 1 := by
  intro rest
  induction rest with
  | nil =>
      intro m i k0 prev hm
      exact absurd hm (by simp)
  | cons s rest ih =>
      intro m i k0 prev hm hsucc hfail
      cases m with
      | zero =>
          have hf := hfail (truncateTweet (renderReply i s))
          simp only [Nat.add_zero] at hf
          simp [postReplies, hf]
      | succ m2 =>
          have hs := hsucc 0 (by omega) (truncateTweet (renderReply i s))
          simp only [Nat.add_zero] at hs
          have hm2 : m2 < rest.length := by
            simp only [List.length_cons] at hm
            omega
          have ihh := ih m2 (i + 1) (k0 + 1) (ids k0) hm2
            (fun j hj t => by
              have h := hsucc (j + 1) (by omega) t
              have e1 : k0 + (j + 1) = k0 + 1 + j := by omega
              rwa [e1] at h)
            (fun t => by
              have h := hfail t
              have e1 : k0 + (m2 + 1) = k0 + 1 + m2 := by omega
              rwa [e1] at h)
          simp only [postReplies, hs]
          constructor
          · rw [ihh.1]
            have e1 : ∀ j : Nat, i + 1 + j = i + (j + 1) := fun j => by omega
            have e2 : ∀ j : Nat, k0 + 1 + j = k0 + (j + 1) := fun j => by omega
            simp [List.range_succ_eq_map, List.map_map, Function.comp,
                  Nat.succ_eq_add_one, e1, e2]
          · rw [ihh.2]
            omega

/-- C1 (amended) — When the submission of a mid-chain story `k`
(`1 < k ≤ n`) fails while stories `1..k-1` succeeded, `post_thread`
records `posted` results for stories `1..k-1` and a `failed` result for
story `k`, attempts no submission for any story after `k` (the loop
`break`s, bot.py:184) — but, contrary to the claim, it *still attempts
the engagement closer*: the `break` falls through to the final-reply
block (bot.py:186-191), which submits the closer anchored to the last
successful post, and its outcome is the last audit event. -/
theorem c1_mid_chain_failure (intro : Str) (client : Nat → Str → PostOutcome)
    (stories : List Story) (ids : Nat → Nat) (e : Str) (k : Nat)
    (h2 : 2 ≤ k) (hk : k ≤ stories.length)
    (hsucc : ∀ j, j < k - 1 → ∀ t, client j t = .success (ids j))
    (hfail : ∀ t, client (k - 1) t = .failure e) :
    post_thread intro client stories =
      (List.range (k - 1)).map (fun j => PEvent.posted (j + 1) (ids j))
        ++ [PEvent.failed k e, closerEventOf (client k closerText)] := by
  obtain ⟨m, rfl⟩ : ∃ m, k = m + 2 := ⟨k - 2, by omega⟩
  cases stories with
  | nil => simp at hk
  | cons s1 rest =>
      have hroot := hsucc 0 (by omega) (truncateTweet (renderFirst intro s1))
      have hm : m < rest.length := by
        simp only [List.length_cons] at hk
        omega
      have hrep := postReplies_fail_spec client ids e rest m 2 1 (ids 0) hm
        (fun j hj t => by
          have h := hsucc (j + 1) (by omega) t
          have e1 : j + 1 = 1 + j := by omega
          rwa [e1] at h)
        (fun t => by
          have h := hfail t
          have e1 : m + 2 - 1 = 1 + m := by omega
          rwa [e1] at h)
      simp only [post_thread, hroot]
      rw [hrep.1, hrep.2]
      have ek : m + 2 - 1 = m + 1 := by omega
      rw [ek]
      have e1 : ∀ j : Nat, 2 + j = j + 1 + 1 := fun j => by omega
      have e2 : ∀ j : Nat, 1 + j = j + 1 := fun j => by omega
      simp [List.range_succ_eq_map, List.map_map, Function.comp,
            Nat.succ_eq_add_one, e1, e2]

/-- A posting client that succeeds on the first two calls and then
raises on every later call. -/
def c1Client : Nat → Str → PostOutcome := fun j _ =>
  if j < 2 then .success (100 + j) else .failure "exploded".data

/-- The three-story batch for the mid-chain scenario. -/
def c1Stories : List Story := [wStory, wStory2, wStory3]

/-- Counterexample to C1: with three stories and a client failing on the
third submission, the audit trail is `posted 1`, `posted 2`, `failed 3` —
and then a closer attempt: the engagement closer *is* attempted after the
mid-chain failure, contrary to the claim. -/
theorem c1_closer_attempted_counterexample :
    post_thread [] c1Client c1Stories =
      [.posted 1 100, .posted 2 101, .failed 3 "exploded".data,
       .closerFailed "exploded".data] ∧
    attemptsCloser (post_thread [] c1Client c1Stories) = true :=
  ⟨by decide, by decide⟩

/-- Witness for amended C1: the general mid-chain theorem instantiated at
the concrete three-story scenario. -/
theorem c1_mid_chain_failure_witness :
    post_thread [] c1Client c1Stories =
      (List.range 2).map (fun j => PEvent.posted (j + 1) (100 + j))
        ++ [PEvent.failed 3 "exploded".data,
            closerEventOf (c1Client 3 closerText)] :=
  c1_mid_chain_failure [] c1Client c1Stories (fun j => 100 + j) "exploded".data 3
    (by omega) (by decide)
    (fun j hj t => by
      have hj2 : j < 2 := by omega
      simp [c1Client, hj2])
    (fun t => by simp [c1Client])
